import Mathlib

/-!
Shallow embedding of the SymonsSluttyAPITester repository: an Express relay
over the TMDB HTTP API (src/server/index.ts), a movie-search React UI
(src/App.tsx), and an older generic API-tester UI. Pure functions below are
translated directly from the handlers in those files; asynchronous handlers
become functions from an explicit outcome of the awaited network call to the
produced response or event trace.
-/

/-- Minimal model of a JavaScript/JSON value as it flows through the relay
and the UI. The extra constructor undef models the JavaScript value
undefined, which property access on a missing key produces and which JSON
serialization drops. -/
inductive Json where
  | undef
  | null
  | bool (b : Bool)
  | num (n : Int)
  | str (s : String)
  | arr (elems : List Json)
  | obj (fields : List (String × Json))

/-- Lookup of a key in the field list of a JSON object; a missing key gives
undefined, as JavaScript property access does. -/
def lookupField : List (String × Json) → String → Json
  | [], _ => .undef
  | (k, v) :: rest, key => if k == key then v else lookupField rest key

/-- Model of JavaScript property access o.k on a non-nullish base: field
lookup on an object, undefined on other values. Property access on a
nullish base throws a TypeError in JavaScript; callers for which a nullish
base is reachable test isNullish first and route to their catch block (the
relay handlers below do), while the UI submit handler applies this only to
bodies produced by this relay, which are always objects. -/
def Json.getField : Json → String → Json
  | .obj fields, key => lookupField fields key
  | _, _ => .undef

def Json.isUndef : Json → Bool
  | .undef => true
  | _ => false

/-- The values on which JavaScript property access throws a TypeError
instead of yielding a field: null and undefined. -/
def Json.isNullish : Json → Bool
  | .undef => true
  | .null => true
  | _ => false

/-- JSON serialization of an object literal drops properties whose value is
undefined, so res.json on an object with undefined fields sends the object
without them. One level suffices for the bodies the relay builds. -/
def serializeFields (fields : List (String × Json)) : List (String × Json) :=
  fields.filter (fun kv => !kv.2.isUndef)

/-- JavaScript truthiness of a possibly absent string, as tested by the
guards if (genreId), if (title), if (selectedGenre), if (searchQuery):
absent (undefined) and the empty string are falsy. -/
def truthyStr : Option String → Bool
  | none => false
  | some s => !s.isEmpty

/-- The JavaScript expression v or-else dflt (written with the logical-or
operator) over a possibly absent string, as in req.query.page with default
1: falls back when v is undefined or empty. -/
def jsOrDefault (v : Option String) (dflt : String) : String :=
  match v with
  | some s => if s.isEmpty then dflt else s
  | none => dflt

/-- The JavaScript logical-or of two possibly absent strings, as in
movie.release_date logical-or movie.first_air_date. -/
def jsOrStr (a b : Option String) : Option String :=
  match a with
  | some s => if s.isEmpty then b else some s
  | none => b

/-- A string encoding an integer, the shape the relay contract in the spec
gives for the genreId and page query parameters. -/
def isIntString (s : String) : Bool :=
  !s.isEmpty && s.toList.all Char.isDigit

/-! ## Relay service (src/server/index.ts) -/

def TMDB_API_KEY : String := "2af03cea783dab21c0f5594423ebccad"

def TMDB_BASE_URL : String := "https://api.themoviedb.org/3"

/-- The query parameters of a GET /api/movies request as the handler reads
them: req.query.genreId, req.query.title, req.query.page, each possibly
absent. An empty string models a parameter supplied with no value. -/
structure MoviesQuery where
  genreId : Option String
  title : Option String
  page : Option String

/-- The params object the movies handler builds for the upstream call:
four fixed fields, then with_genres and query added conditionally. An
Option none field models a key not present in the object. -/
structure UpstreamParams where
  api_key : String
  include_adult : Bool
  language : String
  page : String
  with_genres : Option String
  query : Option String

/-- The upstream URL chosen by the movies handler: search when title is
truthy, discover otherwise. -/
def moviesEndpoint (title : Option String) : String :=
  if truthyStr title then TMDB_BASE_URL ++ "/search/movie"
  else TMDB_BASE_URL ++ "/discover/movie"

/-- The upstream request (endpoint and parameter map) that the
GET /api/movies handler issues for a given request query, translated from
lines 21 to 37 of src/server/index.ts. -/
def moviesUpstreamRequest (q : MoviesQuery) : String × UpstreamParams :=
  let page := jsOrDefault q.page "1"
  let params : UpstreamParams :=
    { api_key := TMDB_API_KEY
      include_adult := false
      language := "en-US"
      page := page
      with_genres := if truthyStr q.genreId then q.genreId else none
      query := if truthyStr q.title then q.title else none }
  (moviesEndpoint q.title, params)

/-- Outcome of the awaited axios.get call: ok with the parsed body when the
upstream answered with a success status, err when axios threw (network
error or non-success upstream status), carrying the detail string the
handler logs via console.error. -/
inductive UpstreamOutcome where
  | ok (data : Json)
  | err (detail : String)

/-- The response a relay handler produces: HTTP status, JSON body (undef
models res.json applied to undefined, which sends no JSON value), and what
was logged to the server console, if anything. -/
structure RelayResponse where
  status : Nat
  body : Json
  logged : Option String

/-- The response of GET /api/movies as a function of the upstream outcome.
On a resolved upstream call the handler reads response.data.results and
response.data.total_pages: when the payload is nullish this property access
throws a TypeError, still inside the try, so the catch block logs the
thrown error (it has no response field, so the error itself is logged) and
sends the generic 500; otherwise the handler answers 200 with whatever the
two accesses extracted, serialization dropping undefined fields. On a
thrown upstream error the catch block logs the detail and sends 500 with
the same generic body. -/
def moviesRespond : UpstreamOutcome → RelayResponse
  | .ok data =>
    if data.isNullish then
      { status := 500
        body := Json.obj [("error", Json.str "Failed to fetch movies")]
        logged := some "TypeError from reading a property of a nullish payload" }
    else
      { status := 200
        body := Json.obj (serializeFields
          [("results", data.getField "results"),
           ("total_pages", data.getField "total_pages")])
        logged := none }
  | .err detail =>
    { status := 500
      body := Json.obj [("error", Json.str "Failed to fetch movies")]
      logged := some detail }

/-- The response of GET /api/genres as a function of the upstream outcome:
on a resolved call, res.json of response.data.genres, where a nullish
payload makes the property access throw into the catch block exactly as in
the movies handler; on a thrown error a logged 500 with a generic body. -/
def genresRespond : UpstreamOutcome → RelayResponse
  | .ok data =>
    if data.isNullish then
      { status := 500
        body := Json.obj [("error", Json.str "Failed to fetch genres")]
        logged := some "TypeError from reading a property of a nullish payload" }
    else
      { status := 200
        body := data.getField "genres"
        logged := none }
  | .err detail =>
    { status := 500
      body := Json.obj [("error", Json.str "Failed to fetch genres")]
      logged := some detail }

/-! ## Search UI (src/App.tsx) -/

/-- A genre record as typed in App.tsx. -/
structure Genre where
  id : Int
  name : String

/-- The ApiResponse state of the UI: data is any JSON value, error an
optional message. -/
structure ApiResponse where
  data : Json
  error : Option String

/-- The form state handleSubmit reads: searchQuery, selectedGenre (empty
string means no selection) and currentPage. -/
structure FormState where
  searchQuery : String
  selectedGenre : String
  currentPage : Nat

/-- Outcome of the awaited fetch plus res.json in handleSubmit: ok carries
the parsed JSON body (fetch resolves for any HTTP status), thrown means the
promise chain rejected (network failure or unparsable body), carrying the
cause only to show the handler ignores it. -/
inductive FetchOutcome where
  | ok (body : Json)
  | thrown (cause : String)

/-- The URLSearchParams the submit handler builds from the form state,
translated from lines 53 to 56 of src/App.tsx: genreId and title are
appended only when truthy, page always. -/
def submitRequestParams (f : FormState) : List (String × String) :=
  (if truthyStr (some f.selectedGenre) then [("genreId", f.selectedGenre)] else []) ++
  (if truthyStr (some f.searchQuery) then [("title", f.searchQuery)] else []) ++
  [("page", toString f.currentPage)]

/-- The ApiResponse stored by the submit handler: on ok, data.results with
no error field; on a rejection, null data and the fixed message, whatever
the cause was. -/
def submitResponse : FetchOutcome → ApiResponse
  | .ok body => { data := body.getField "results", error := none }
  | .thrown _ => { data := Json.null, error := some "Failed to fetch data" }

/-- State updates and the outgoing request of a submit handler, in the
order they happen. -/
inductive UIEvent where
  | setLoading (b : Bool)
  | fetchIssued (params : List (String × String))
  | setResponse (r : ApiResponse)
  | setTotalPages (v : Json)

/-- The event trace of handleSubmit in src/App.tsx for one submission:
setLoading true, the fetch with the built parameters, then on a parsed body
setResponse and setTotalPages, on a rejection setResponse with the fixed
error, and in both cases the finally block runs setLoading false. -/
def handleSubmit (f : FormState) (o : FetchOutcome) : List UIEvent :=
  match o with
  | .ok body =>
    [.setLoading true,
     .fetchIssued (submitRequestParams f),
     .setResponse (submitResponse (.ok body)),
     .setTotalPages (body.getField "total_pages"),
     .setLoading false]
  | .thrown cause =>
    [.setLoading true,
     .fetchIssued (submitRequestParams f),
     .setResponse (submitResponse (.thrown cause)),
     .setLoading false]

/-- The values passed to setLoading along a trace, in order. -/
def loadingUpdates (trace : List UIEvent) : List Bool :=
  trace.filterMap (fun e => match e with
    | .setLoading b => some b
    | _ => none)

/-- The submit button disabled attribute is exactly the loading flag. -/
def submitButtonDisabled (loading : Bool) : Bool := loading

/-- What the results area of App.tsx renders; crashMap marks the guard
taking the cards branch on a value whose map is not a function. -/
inductive RenderOutcome where
  | nothing
  | errorBanner (msg : String)
  | noMovies
  | cards (movies : List Json)
  | crashMap

/-- The results area, translated from lines 117 to 153 of src/App.tsx:
nothing while response is null; the error div when response.error is
truthy; otherwise the guard data and data.length greater than zero chooses
between the cards and the no-movies div. A non-empty string in data is
truthy with positive length, so the guard takes the cards branch and the
call to map on it throws, modelled by crashMap; every other non-array
value is falsy or has an undefined length, so the comparison is false and
the no-movies div renders. -/
def renderResults (response : Option ApiResponse) : RenderOutcome :=
  match response with
  | none => .nothing
  | some r =>
    if truthyStr r.error then .errorBanner (r.error.getD "")
    else
      match r.data with
      | Json.arr movies => if 0 < movies.length then .cards movies else .noMovies
      | Json.str s => if 0 < s.length then .crashMap else .noMovies
      | _ => .noMovies

/-- The movieGenres display string of one card, translated from lines 125
to 129 of src/App.tsx: a missing genre_ids gives N/A via the logical-or;
otherwise each id is looked up in the cached genre list, unresolved ids map
to null, filter Boolean drops nulls and empty names, the rest are joined
with a comma, and an empty join falls back to N/A. -/
def movieGenres (genre_ids : Option (List Int)) (genres : List Genre) : String :=
  match genre_ids with
  | none => "N/A"
  | some ids =>
    let names := ids.filterMap
      (fun id => (genres.find? (fun g => g.id == id)).map Genre.name)
    let kept := names.filter (fun s => !s.isEmpty)
    let joined := String.intercalate ", " kept
    if joined.isEmpty then "N/A" else joined

def digitVal (c : Char) : Nat := c.toNat - 48

/-- Days of a month in the Gregorian calendar, as ISO date parsing
validates them, leap years included. -/
def daysInMonth (year month : Nat) : Nat :=
  if month == 2 then
    if year % 4 == 0 && (year % 100 != 0 || year % 400 == 0) then 29 else 28
  else if month == 4 || month == 6 || month == 9 || month == 11 then 30
  else 31

/-- Model of new Date(s).getFullYear() restricted to the date-only ISO form
YYYY-MM-DD that the upstream API uses for release_date and first_air_date:
the literal year digits when the string has that shape with a valid
calendar month and day (an out-of-range day such as the thirtieth of
February gives an Invalid Date, hence NaN, hence none), none for any other
string. Date-only strings parse as UTC midnight while getFullYear reads
local time, so for a January first date in a zone west of UTC the real
year is one less than the literal one; the model uses the literal year,
exact everywhere except within a day of a year boundary, and no claim
evaluates a date there. -/
def dateYear (s : String) : Option Nat :=
  match s.toList with
  | [y1, y2, y3, y4, '-', m1, m2, '-', d1, d2] =>
    if (y1.isDigit && y2.isDigit && y3.isDigit && y4.isDigit
        && m1.isDigit && m2.isDigit && d1.isDigit && d2.isDigit) then
      let year := digitVal y1 * 1000 + digitVal y2 * 100 + digitVal y3 * 10 + digitVal y4
      let month := digitVal m1 * 10 + digitVal m2
      let day := digitVal d1 * 10 + digitVal d2
      if 1 ≤ month && month ≤ 12 && 1 ≤ day && day ≤ daysInMonth year month then
        some year
      else none
    else none
  | _ => none

/-- The year of one card, line 143 of src/App.tsx: new Date applied to
release_date logical-or first_air_date; none models the NaN that
getFullYear returns on an Invalid Date (in particular when both fields are
absent, since new Date of undefined is invalid). -/
def displayYear (release_date first_air_date : Option String) : Option Nat :=
  match jsOrStr release_date first_air_date with
  | none => none
  | some s => dateYear s

/-- The text React interpolates for the year: the number, with NaN rendered
as the three letters NaN rather than crashing. -/
def displayYearText (release_date first_air_date : Option String) : String :=
  match displayYear release_date first_air_date with
  | some y => toString y
  | none => "NaN"

/-! ## Genre fetch at mount (src/App.tsx, useEffect) -/

/-- Outcome of the genre-list fetch performed at mount: resolved carries
the JSON body that res.json parsed, whatever the HTTP status was, because
fetch resolves on an error status too and fetchGenres performs no res.ok
check; thrown means the promise chain rejected, carrying the detail
console.error logs. -/
inductive GenresFetchOutcome where
  | resolved (body : Json)
  | thrown (detail : String)

/-- The observable result of mounting App: how many genre-list requests the
mount issues, the JSON value the genres state holds afterwards (setGenres
stores whatever body was parsed, despite the List Genre annotation), and
what was logged. -/
structure MountTrace where
  genreFetches : Nat
  genres : Json
  logged : Option String

/-- Mounting App, from lines 33 to 45 of src/App.tsx: the effect has the
empty dependency array, so React runs its body once at mount; fetchGenres
issues one request, stores any parsed body via setGenres with nothing
logged, and only on a rejected promise logs the detail and leaves the
genres state at its initial value, the empty array. -/
def mountApp : GenresFetchOutcome → MountTrace
  | .resolved body => { genreFetches := 1, genres := body, logged := none }
  | .thrown detail => { genreFetches := 1, genres := Json.arr [], logged := some detail }

/-- What the genre dropdown of App.tsx renders from the stored genres
state: an option per element when the state is an array, and a crash when
it is anything else, since line 101 calls genres.map and map is not a
function on a non-array. -/
inductive SelectRender where
  | options (elems : List Json)
  | crash

def renderGenreOptions : Json → SelectRender
  | Json.arr elems => .options elems
  | _ => .crash

/-- React re-runs an effect body after a render only when its dependency
list changed since the previous render: one run at mount plus one per
change. -/
def effectRunCount (depsChangedAt : List Bool) : Nat :=
  1 + (depsChangedAt.filter id).length

/-- Runs of the genre-fetch effect across a session with the given number
of re-renders: its dependency list is the literal empty array, which never
differs between renders. -/
def genreFetchRuns (rerenders : Nat) : Nat :=
  effectRunCount (List.replicate rerenders false)

/-! ## API-tester UI (src/unnamed/part_000) -/

/-- The form state of the tester UI: the url typed and the method
selected. -/
structure TesterForm where
  url : String
  method : String

/-- Outcome of the awaited fetch plus res.json of the tester submit
handler. -/
inductive ProxyOutcome where
  | ok (body : Json)
  | thrown (cause : String)

/-- The event trace of handleSubmit in the tester UI: setLoading true, the
POST to the proxy carrying url and method, then setResponse with the data
or the fixed error, and the finally block always runs setLoading false. -/
def testerHandleSubmit (f : TesterForm) (o : ProxyOutcome) : List UIEvent :=
  match o with
  | .ok body =>
    [.setLoading true,
     .fetchIssued [("url", f.url), ("method", f.method)],
     .setResponse { data := body, error := none },
     .setLoading false]
  | .thrown _ =>
    [.setLoading true,
     .fetchIssued [("url", f.url), ("method", f.method)],
     .setResponse { data := Json.null, error := some "Failed to fetch data" },
     .setLoading false]

/-! ## Helper lemmas -/

theorem movieGenres_empty_cache (ids : List Int) :
    movieGenres (some ids) [] = "N/A" := by
  have hfm : List.filterMap (fun _ : Int => (none : Option String)) ids = [] := by
    simp
  simp [movieGenres, hfm, String.intercalate]
  decide

theorem genreFetchRuns_eq_one (n : Nat) : genreFetchRuns n = 1 := by
  have h : (List.replicate n false).filter id = [] := by simp
  simp [genreFetchRuns, effectRunCount, h]

theorem isIntString_not_empty {s : String} (h : isIntString s = true) :
    s.isEmpty = false := by
  have h2 := (Bool.and_eq_true _ _).mp h
  simpa using h2.1

/-! ## Claims -/

/-- Claim C1, counterexample: with title Star and genreId 28 supplied, the
title is a non-empty string, yet the parameter map the handler builds does
contain with_genres with value 28, because line 33 of src/server/index.ts
adds it whenever genreId is truthy, independently of title. -/
theorem C1_counterexample :
    truthyStr (MoviesQuery.mk (some "28") (some "Star") none).title = true ∧
    (moviesUpstreamRequest (MoviesQuery.mk (some "28") (some "Star") none)).2.with_genres
      = some "28" := by
  exact ⟨rfl, rfl⟩

/-- Claim C1 as amended: for every movies request whose title is a
non-empty string, the handler calls the upstream search-by-title endpoint
with query equal to that title, and the parameter map contains with_genres
equal to genreId exactly when genreId is also supplied non-empty (it is not
omitted on the search path). -/
theorem C1_search_request (q : MoviesQuery) (h : truthyStr q.title = true) :
    (moviesUpstreamRequest q).1 = TMDB_BASE_URL ++ "/search/movie" ∧
    (moviesUpstreamRequest q).2.query = q.title ∧
    (moviesUpstreamRequest q).2.with_genres =
      (if truthyStr q.genreId then q.genreId else none) := by
  refine ⟨?_, ?_, rfl⟩
  · simp [moviesUpstreamRequest, moviesEndpoint, h]
  · simp [moviesUpstreamRequest, h]

/-- Witness for C1_search_request at a concrete request. -/
theorem C1_search_request_witness :
    truthyStr (MoviesQuery.mk (some "28") (some "Star") (some "1")).title = true ∧
    ((moviesUpstreamRequest (MoviesQuery.mk (some "28") (some "Star") (some "1"))).1
        = TMDB_BASE_URL ++ "/search/movie" ∧
      (moviesUpstreamRequest (MoviesQuery.mk (some "28") (some "Star") (some "1"))).2.query
        = some "Star" ∧
      (moviesUpstreamRequest (MoviesQuery.mk (some "28") (some "Star") (some "1"))).2.with_genres
        = (if truthyStr (MoviesQuery.mk (some "28") (some "Star") (some "1")).genreId
            then (MoviesQuery.mk (some "28") (some "Star") (some "1")).genreId else none)) :=
  ⟨rfl, C1_search_request (MoviesQuery.mk (some "28") (some "Star") (some "1")) rfl⟩

/-- Claim C2: every submission first sets loading, issues the request with
the parameters built from the current form state, stores on a parsed body
the results and total page count and on a rejection the fixed message
whatever the cause, always ends by clearing loading, and an empty results
array renders the no-movies outcome, a constructor distinct from the error
banner that a rejection renders. -/
theorem C2_submit_state_machine (f : FormState) (o : FetchOutcome) (cause : String) :
    (handleSubmit f o).head? = some (UIEvent.setLoading true) ∧
    UIEvent.fetchIssued (submitRequestParams f) ∈ handleSubmit f o ∧
    UIEvent.setResponse (submitResponse o) ∈ handleSubmit f o ∧
    (∀ body : Json, UIEvent.setTotalPages (body.getField "total_pages")
        ∈ handleSubmit f (FetchOutcome.ok body)) ∧
    (handleSubmit f o).getLast? = some (UIEvent.setLoading false) ∧
    submitRequestParams (FormState.mk "star" "28" 2)
      = [("genreId", "28"), ("title", "star"), ("page", "2")] ∧
    submitResponse (FetchOutcome.thrown cause) =
      { data := Json.null, error := some "Failed to fetch data" } ∧
    renderResults (some (submitResponse (FetchOutcome.ok
        (Json.obj [("results", Json.arr []), ("total_pages", Json.num 1)]))))
      = RenderOutcome.noMovies ∧
    renderResults (some (submitResponse (FetchOutcome.thrown cause)))
      = RenderOutcome.errorBanner "Failed to fetch data" ∧
    (∀ msg, RenderOutcome.noMovies ≠ RenderOutcome.errorBanner msg) := by
  refine ⟨?_, ?_, ?_, ?_, ?_, rfl, rfl, rfl, rfl, ?_⟩
  · cases o <;> rfl
  · cases o <;> simp [handleSubmit]
  · cases o <;> simp [handleSubmit]
  · intro body; simp [handleSubmit]
  · cases o <;> rfl
  · intro msg h; exact RenderOutcome.noConfusion h

/-- Claim C3, counterexample: an upstream success whose payload is the
empty object, missing results, total_pages and genres, makes both handlers
answer with status 200 and a degenerate body (the undefined fields are
dropped by serialization), not with a 500 error body. -/
theorem C3_counterexample :
    (moviesRespond (UpstreamOutcome.ok (Json.obj []))).status = 200 ∧
    (moviesRespond (UpstreamOutcome.ok (Json.obj []))).body = Json.obj [] ∧
    (genresRespond (UpstreamOutcome.ok (Json.obj []))).status = 200 ∧
    (genresRespond (UpstreamOutcome.ok (Json.obj []))).body = Json.undef :=
  ⟨rfl, rfl, rfl, rfl⟩

/-- Claim C3 as amended: when the upstream call resolves with an object
payload missing the expected fields, both handlers answer 200 with a
degenerate payload, the missing fields dropped by serialization, contrary
to the claimed 500; a resolved nullish payload instead makes the handlers
own property access throw into the catch block and does produce the 500
error body, as a thrown upstream failure does. -/
theorem C3_malformed_passthrough (fields : List (String × Json)) (detail : String) :
    (moviesRespond (UpstreamOutcome.ok (Json.obj fields))).status = 200 ∧
    (genresRespond (UpstreamOutcome.ok (Json.obj fields))).status = 200 ∧
    (moviesRespond (UpstreamOutcome.ok (Json.obj fields))).body = Json.obj (serializeFields
      [("results", (Json.obj fields).getField "results"),
       ("total_pages", (Json.obj fields).getField "total_pages")]) ∧
    (genresRespond (UpstreamOutcome.ok (Json.obj fields))).body
      = (Json.obj fields).getField "genres" ∧
    (moviesRespond (UpstreamOutcome.ok Json.null)).status = 500 ∧
    (moviesRespond (UpstreamOutcome.ok Json.null)).body
      = Json.obj [("error", Json.str "Failed to fetch movies")] ∧
    (genresRespond (UpstreamOutcome.ok Json.null)).status = 500 ∧
    (genresRespond (UpstreamOutcome.ok Json.null)).body
      = Json.obj [("error", Json.str "Failed to fetch genres")] ∧
    (moviesRespond (UpstreamOutcome.err detail)).status = 500 ∧
    (genresRespond (UpstreamOutcome.err detail)).status = 500 :=
  ⟨rfl, rfl, rfl, rfl, rfl, rfl, rfl, rfl, rfl, rfl⟩

/-- Claim C4: on a thrown upstream failure both handlers return status 500
with a fixed generic body and log the failure detail; the response being a
constant term not mentioning the detail shows the detail is logged but
never sent to the caller, and the handlers are total functions of the
outcome, so no fault escapes unhandled. -/
theorem C4_failure_logged_not_leaked (detail : String) :
    moviesRespond (UpstreamOutcome.err detail) =
      { status := 500
        body := Json.obj [("error", Json.str "Failed to fetch movies")]
        logged := some detail } ∧
    genresRespond (UpstreamOutcome.err detail) =
      { status := 500
        body := Json.obj [("error", Json.str "Failed to fetch genres")]
        logged := some detail } :=
  ⟨rfl, rfl⟩

/-- Witness for C4_failure_logged_not_leaked at a concrete detail. -/
theorem C4_failure_logged_not_leaked_witness :
    moviesRespond (UpstreamOutcome.err "ECONNREFUSED") =
      { status := 500
        body := Json.obj [("error", Json.str "Failed to fetch movies")]
        logged := some "ECONNREFUSED" } ∧
    genresRespond (UpstreamOutcome.err "ECONNREFUSED") =
      { status := 500
        body := Json.obj [("error", Json.str "Failed to fetch genres")]
        logged := some "ECONNREFUSED" } :=
  C4_failure_logged_not_leaked "ECONNREFUSED"

/-- Claim C5: for every in-contract movies request with title absent, where
genreId and page are, when supplied, string-encoded integers as the
contract states, the handler calls the discover endpoint, omits query,
includes with_genres exactly when genreId is present, always sends the
fixed api_key, include_adult false, language en-US, and sends the requested
page with default 1 when absent. -/
theorem C5_discover_request (q : MoviesQuery)
    (ht : q.title = none)
    (hg : q.genreId.all isIntString = true)
    (hp : q.page.all isIntString = true) :
    (moviesUpstreamRequest q).1 = TMDB_BASE_URL ++ "/discover/movie" ∧
    (moviesUpstreamRequest q).2.query = none ∧
    (moviesUpstreamRequest q).2.with_genres = q.genreId ∧
    (moviesUpstreamRequest q).2.api_key = TMDB_API_KEY ∧
    (moviesUpstreamRequest q).2.include_adult = false ∧
    (moviesUpstreamRequest q).2.language = "en-US" ∧
    (moviesUpstreamRequest q).2.page = q.page.getD "1" := by
  refine ⟨?_, ?_, ?_, rfl, rfl, rfl, ?_⟩
  · simp [moviesUpstreamRequest, moviesEndpoint, ht, truthyStr]
  · simp [moviesUpstreamRequest, ht, truthyStr]
  · cases hq : q.genreId with
    | none => simp [moviesUpstreamRequest, hq, truthyStr]
    | some s =>
      rw [hq] at hg
      have hs := isIntString_not_empty (by simpa using hg)
      simp [moviesUpstreamRequest, hq, truthyStr, hs]
  · cases hpq : q.page with
    | none => simp [moviesUpstreamRequest, hpq, jsOrDefault]
    | some p =>
      rw [hpq] at hp
      have hs := isIntString_not_empty (by simpa using hp)
      simp [moviesUpstreamRequest, hpq, jsOrDefault, hs]

/-- Witness for C5_discover_request at a concrete request. -/
theorem C5_discover_request_witness :
    ((MoviesQuery.mk (some "28") none (some "2")).title = none ∧
      (MoviesQuery.mk (some "28") none (some "2")).genreId.all isIntString = true ∧
      (MoviesQuery.mk (some "28") none (some "2")).page.all isIntString = true) ∧
    ((moviesUpstreamRequest (MoviesQuery.mk (some "28") none (some "2"))).1
        = TMDB_BASE_URL ++ "/discover/movie" ∧
      (moviesUpstreamRequest (MoviesQuery.mk (some "28") none (some "2"))).2.query = none ∧
      (moviesUpstreamRequest (MoviesQuery.mk (some "28") none (some "2"))).2.with_genres
        = some "28" ∧
      (moviesUpstreamRequest (MoviesQuery.mk (some "28") none (some "2"))).2.api_key
        = TMDB_API_KEY ∧
      (moviesUpstreamRequest (MoviesQuery.mk (some "28") none (some "2"))).2.include_adult
        = false ∧
      (moviesUpstreamRequest (MoviesQuery.mk (some "28") none (some "2"))).2.language
        = "en-US" ∧
      (moviesUpstreamRequest (MoviesQuery.mk (some "28") none (some "2"))).2.page = "2") :=
  ⟨⟨rfl, by decide, by decide⟩,
    C5_discover_request (MoviesQuery.mk (some "28") none (some "2")) rfl
      (by decide) (by decide)⟩

/-- Claim C6: with the cached genre list holding 28 Action and 12
Adventure, a card with genre_ids 28 and 12 displays Action, Adventure; a
card whose only id 999 matches nothing displays N/A; and an unresolved id
among resolved ones silently drops from the joined string. -/
theorem C6_genre_resolution :
    movieGenres (some [28, 12]) [⟨28, "Action"⟩, ⟨12, "Adventure"⟩]
      = "Action, Adventure" ∧
    movieGenres (some [999]) [⟨28, "Action"⟩, ⟨12, "Adventure"⟩] = "N/A" ∧
    movieGenres (some [28, 999, 12]) [⟨28, "Action"⟩, ⟨12, "Adventure"⟩]
      = "Action, Adventure" :=
  ⟨rfl, rfl, rfl⟩

/-- Claim C7: a card with release_date 1999-03-31 and no first_air_date
displays the year 1999; with neither date the year expression is the NaN
of an Invalid Date, rendered as the text NaN by a total function, so
rendering cannot crash. -/
theorem C7_year_extraction :
    displayYear (some "1999-03-31") none = some 1999 ∧
    displayYearText (some "1999-03-31") none = "1999" ∧
    displayYear none none = none ∧
    displayYearText none none = "NaN" :=
  ⟨rfl, rfl, rfl, rfl⟩

/-- Claim C8, the code at the failing input: the once-at-mount part holds
(one fetch, and the empty dependency array never re-runs the effect), and
so does the claimed behavior for a rejected fetch (detail logged, genres
left the empty array which renders fine, submissions still issued, names
unresolved to N/A). But when TMDB is unreachable the relay resolves the
genre fetch with HTTP 500 and the error object body; fetchGenres has no
res.ok check, so res.json parses that object and setGenres stores it with
nothing logged, the genres state is not the empty list, and the next
render of the dropdown crashes at genres.map — refuting the claim that
every failure of the fetch is logged, leaves the list empty and keeps
search functional. -/
theorem C8_genre_failure_crash (detail : String) (n : Nat)
    (ids : List Int) (f : FormState) (fo : FetchOutcome) :
    (mountApp (GenresFetchOutcome.resolved
        ((genresRespond (UpstreamOutcome.err detail)).body)))
      = { genreFetches := 1
          genres := Json.obj [("error", Json.str "Failed to fetch genres")]
          logged := none } ∧
    renderGenreOptions (mountApp (GenresFetchOutcome.resolved
        ((genresRespond (UpstreamOutcome.err detail)).body))).genres
      = SelectRender.crash ∧
    mountApp (GenresFetchOutcome.thrown detail) =
      { genreFetches := 1, genres := Json.arr [], logged := some detail } ∧
    renderGenreOptions (Json.arr []) = SelectRender.options [] ∧
    genreFetchRuns n = 1 ∧
    movieGenres (some ids) [] = "N/A" ∧
    UIEvent.fetchIssued (submitRequestParams f) ∈ handleSubmit f fo := by
  refine ⟨rfl, rfl, rfl, rfl, genreFetchRuns_eq_one n,
    movieGenres_empty_cache ids, ?_⟩
  cases fo <;> simp [handleSubmit]

/-- Claim C9: at the movies endpoint a query parameter supplied as the
empty string behaves exactly like an absent one: an empty title still
selects the discover path with query omitted, an empty genreId omits
with_genres, and an empty page falls back to the default 1. -/
theorem C9_empty_equals_absent (g t p : Option String) :
    moviesUpstreamRequest (MoviesQuery.mk (some "") t p)
      = moviesUpstreamRequest (MoviesQuery.mk none t p) ∧
    moviesUpstreamRequest (MoviesQuery.mk g (some "") p)
      = moviesUpstreamRequest (MoviesQuery.mk g none p) ∧
    moviesUpstreamRequest (MoviesQuery.mk g t (some ""))
      = moviesUpstreamRequest (MoviesQuery.mk g t none) := by
  have he : "".isEmpty = true := rfl
  refine ⟨?_, ?_, ?_⟩ <;>
    simp [moviesUpstreamRequest, moviesEndpoint, truthyStr, jsOrDefault, he]

/-- Claim C10: in both UIs every submission sets loading to true as its
first action, issues its request, and the finally block sets loading back
to false as its last action on the success and failure paths alike, so the
submit button, disabled exactly while loading, is re-enabled once the
submission finishes. -/
theorem C10_loading_always_reset (f : FormState) (o : FetchOutcome)
    (tf : TesterForm) (po : ProxyOutcome) :
    loadingUpdates (handleSubmit f o) = [true, false] ∧
    (handleSubmit f o).head? = some (UIEvent.setLoading true) ∧
    (handleSubmit f o).getLast? = some (UIEvent.setLoading false) ∧
    loadingUpdates (testerHandleSubmit tf po) = [true, false] ∧
    (testerHandleSubmit tf po).head? = some (UIEvent.setLoading true) ∧
    (testerHandleSubmit tf po).getLast? = some (UIEvent.setLoading false) ∧
    submitButtonDisabled false = false := by
  cases o <;> cases po <;> exact ⟨rfl, rfl, rfl, rfl, rfl, rfl, rfl⟩
